import Mathlib

/-!
Shallow embedding of the NvPipe decode side (`src/decode.c`).

The C file drives NVDEC (cuvid) through three parser callbacks and a
dimension-reconciliation state machine.  Hardware calls (cuvid / CUDA runtime)
are modelled by explicit environment records carrying the result of each call,
and every hardware call and log message is recorded in an event trace so that
"no hardware operation happened" and "exactly one recreation happened" can be
stated about a run.  `assert()` statements in the C source are compiled out in
release builds (NDEBUG); the embedding follows the release semantics and notes
each such spot in a comment.
-/

set_option maxRecDepth 10000

/-- Global limits from decode.c (`MAX_WIDTH`). -/
def MAX_WIDTH : Nat := 4096

/-- Global limits from decode.c (`MAX_HEIGHT`). -/
def MAX_HEIGHT : Nat := 4096

/-- External enum code `cudaVideoChromaFormat_420` (from nvcuvid headers). -/
def cudaVideoChromaFormat_420 : Nat := 1

/-- External enum code `cudaVideoCodec_H264` (from nvcuvid headers). -/
def cudaVideoCodec_H264 : Nat := 4

/-- Return status of the public entry points (`nvp_err_t`).  The C code also
returns raw CUresult/cudaError codes directly in a few places (`return mrs;`);
those are modelled by the `raw` constructor, whose argument is the nonzero
hardware error code. -/
inductive nvp_err where
  | success
  | einval
  | enomem
  | edecode
  | raw (code : Nat)
deriving DecidableEq

/-- Model of `impl.type` of an nvpipe instance (from internal-api.h; only equality with
DECODER matters in decode.c). -/
inductive ImplType where
  | DECODER
  | ENCODER
deriving DecidableEq

/-- Trace events: one per hardware/library call site and one per diagnostic
message in decode.c. -/
inductive Event where
  | createParser
  | errCreateParser
  | reallocHost (n : Nat)
  | errHostAlloc
  | copyDtoH (n : Nat)
  | errHostCopy
  | parsePacket (n : Nat)
  | errParse
  | createDecoder (wi hi wdst hdst : Nat)
  | errCreateDecoder
  | destroyDecoder
  | errDestroyDecoder
  | freeRGB
  | errFreeRGB
  | allocRGB (n : Nat)
  | errAllocRGB
  | decodePicture
  | warnDecodeFail
  | warnTooLarge
  | warnBitDepth
  | traceCodedHeight
  | errBadBackend
  | errZeroInput
  | errBadDims
  | errMetadataOnly
  | mapFrame (idx : Nat)
  | errMap
  | eventRecord
  | errEventRecord
  | streamWait
  | errStreamWait
  | reorgSubmit (w h : Nat)
  | errReorgSubmit
  | reorgCopy (n : Nat)
  | errReorgCopy
  | reorgSync
  | errReorgSync
  | unmapFrame
  | warnUnmapFail
  | errEncodeOnDecoder
  | errBitrateOnDecoder
deriving DecidableEq

/-- Hardware / staging / parser operations (as opposed to pure log output). -/
def Event.isHW : Event → Bool
  | .createParser | .reallocHost _ | .copyDtoH _ | .parsePacket _
  | .createDecoder _ _ _ _ | .destroyDecoder | .freeRGB | .allocRGB _
  | .decodePicture | .mapFrame _ | .eventRecord | .streamWait
  | .reorgSubmit _ _ | .reorgCopy _ | .reorgSync | .unmapFrame => true
  | _ => false

/-- Decode-resource lifecycle operations (create/destroy of the cuvid decoder
and of the RGB conversion buffer). -/
def Event.isResource : Event → Bool
  | .createDecoder _ _ _ _ | .destroyDecoder | .freeRGB | .allocRGB _ => true
  | _ => false

/-- The `d` member of `struct nvp_decoder`: the stored dimension pairs. -/
structure DecDims where
  wi : Nat
  hi : Nat
  wdst : Nat
  hdst : Nat
  wsrc : Nat
  hsrc : Nat
deriving DecidableEq

/-- Model of `struct nvp_decoder`.  Opaque handles (`decoder`, `parser`, `hbuf`,
`rgb`) are modelled by whether they are non-NULL; `hbuf_sz` keeps the staging
buffer capacity.  The event/reorg members carry no state relevant to the
claims beyond existence and are omitted. -/
structure nvp_decoder where
  impl_type : ImplType
  initialized : Bool
  decoder : Bool
  parser : Bool
  hbuf_sz : Nat
  d : DecDims
  rgb : Bool
  empty : Bool
  idx : Nat
deriving DecidableEq

/-- Results of the three CUDA calls made by `dec_initialize`
(cuvidCreateDecoder, cudaFree of the old RGB buffer, cudaMalloc of the new
one); true = the call returned success. -/
structure InitHW where
  createOk : Bool
  freeOk : Bool
  mallocOk : Bool
deriving DecidableEq

/-- Model of `dec_initialize` (decode.c:105-161).  Returns (bool result, new state,
trace).  Note the C code stores `d.wi`/`d.hi` before cuvidCreateDecoder, so
they are updated even when creation fails; on a cudaFree failure the old `rgb`
pointer is NOT cleared (the early return precedes `nvp->rgb = 0`), while on a
cudaMalloc failure it IS cleared.  `d.wdst`/`d.hdst` are updated only when the
requested target size differs and the buffer swap fully succeeds. -/
def decInitialize (hw : InitHW) (nvp : nvp_decoder)
    (iwidth iheight dstwidth dstheight : Nat) :
    Bool × nvp_decoder × List Event :=
  let nvp1 := { nvp with d := { nvp.d with wi := iwidth, hi := iheight } }
  if !hw.createOk then
    (false, nvp1,
      [Event.createDecoder iwidth iheight dstwidth dstheight, Event.errCreateDecoder])
  else
    let nvp2 := { nvp1 with decoder := true }
    let tr0 : List Event := [Event.createDecoder iwidth iheight dstwidth dstheight]
    if dstwidth ≠ nvp2.d.wdst ∨ dstheight ≠ nvp2.d.hdst then
      if nvp2.rgb ∧ !hw.freeOk then
        (false, nvp2, tr0 ++ [Event.freeRGB, Event.errFreeRGB])
      else
        let trF : List Event := if nvp2.rgb then [Event.freeRGB] else []
        let nvp3 := { nvp2 with rgb := false }
        let nb_rgb := dstwidth * dstheight * 3
        if !hw.mallocOk then
          (false, nvp3, tr0 ++ trF ++ [Event.allocRGB nb_rgb, Event.errAllocRGB])
        else
          (true,
            { nvp3 with rgb := true,
                        d := { nvp3.d with wdst := dstwidth, hdst := dstheight },
                        initialized := true },
            tr0 ++ trF ++ [Event.allocRGB nb_rgb])
    else
      (true, { nvp2 with initialized := true }, tr0)

/-- Environment for `resize`: result of cuvidDestroyDecoder plus the
`dec_initialize` environment. -/
structure ResizeHW where
  destroyOk : Bool
  init : InitHW
deriving DecidableEq

/-- Model of `resize` (decode.c:163-172).  Destroys the decoder if present (a failure
is only logged), NULLs the handle, and calls `dec_initialize`, whose boolean
result is ignored. -/
def resize (hw : ResizeHW) (nvp : nvp_decoder)
    (width height dstwidth dstheight : Nat) : nvp_decoder × List Event :=
  let trD : List Event :=
    if nvp.decoder then
      if hw.destroyOk then [Event.destroyDecoder]
      else [Event.destroyDecoder, Event.errDestroyDecoder]
    else []
  let r := decInitialize hw.init { nvp with decoder := false }
    width height dstwidth dstheight
  (r.2.1, trD ++ r.2.2)

/-- The fields of `CUVIDEOFORMAT` read by `dec_sequence`.  The display_area
coordinates are ints in the header; decode.c only forms `right - left` and
`bottom - top` of a well-formed (left ≤ right, top ≤ bottom) display area, so
they are modelled as Nat. -/
structure CUVIDEOFORMAT where
  display_left : Nat
  display_right : Nat
  display_top : Nat
  display_bottom : Nat
  bit_depth_luma_minus8 : Nat
  chroma_format : Nat
  codec : Nat
  progressive_sequence : Nat
  coded_height : Nat
deriving DecidableEq

/-- Model of `dec_sequence` (decode.c:200-236).  Returns the callback's int result
(1 = continue, 0 = stop) plus updated state and trace.  The chroma-format,
codec and progressive-sequence fields are checked only by `assert()` in the C
source (decode.c:218-220): with NDEBUG those checks vanish, so this release
model does not read those fields at all.  Only an unhandled luma bit depth is
rejected (with a WARN diagnostic, returning 0). -/
def dec_sequence (hw : InitHW) (nvp : nvp_decoder) (fmt : CUVIDEOFORMAT) :
    Nat × nvp_decoder × List Event :=
  let trW : List Event :=
    if fmt.display_right > MAX_WIDTH ∨ fmt.display_bottom > MAX_HEIGHT then
      [Event.warnTooLarge]
    else []
  if fmt.bit_depth_luma_minus8 ≠ 0 then
    (0, nvp, trW ++ [Event.warnBitDepth])
  else
    let w := fmt.display_right - fmt.display_left
    let h := fmt.display_bottom - fmt.display_top
    let trT : List Event := if fmt.coded_height ≠ h then [Event.traceCodedHeight] else []
    if !nvp.initialized then
      let r := decInitialize hw nvp w h w h
      if !r.1 then (0, r.2.1, trW ++ trT ++ r.2.2)
      else (1, r.2.1, trW ++ trT ++ r.2.2)
    else (1, nvp, trW ++ trT)

/-- The fields of `CUVIDPICPARAMS` read by `dec_ode`. -/
structure CUVIDPICPARAMS where
  PicWidthInMbs : Nat
  FrameHeightInMbs : Nat
deriving DecidableEq

/-- Model of `dec_ode` (decode.c:238-253).  `decodeOk` is the result of
cuvidDecodePicture.  On failure the callback warns and returns 0 leaving the
stored dimensions untouched; on success it records the source dimensions in
units of 16-pixel macroblocks and returns 1. -/
def dec_ode (decodeOk : Bool) (nvp : nvp_decoder) (pic : CUVIDPICPARAMS) :
    Nat × nvp_decoder × List Event :=
  if !decodeOk then
    (0, nvp, [Event.decodePicture, Event.warnDecodeFail])
  else
    (1, { nvp with d := { nvp.d with wsrc := pic.PicWidthInMbs * 16,
                                     hsrc := pic.FrameHeightInMbs * 16 } },
      [Event.decodePicture])

/-- Model of `dec_display` (decode.c:258-263): pure bookkeeping of the ready slot. -/
def dec_display (nvp : nvp_decoder) (picture_index : Nat) :
    Nat × nvp_decoder × List Event :=
  (1, { nvp with idx := picture_index }, [])

/-- One callback invocation fired by cuvidParseVideoData during a parse call,
with the hardware results its body needs. -/
inductive CB where
  | seq (hw : InitHW) (fmt : CUVIDEOFORMAT)
  | pic (decodeOk : Bool) (p : CUVIDPICPARAMS)
  | disp (picture_index : Nat)
deriving DecidableEq

/-- Runs the callbacks fired during one cuvidParseVideoData call, threading
the decoder state and concatenating their traces.  (cuvid consults the int
results to decide whether to keep parsing; which callbacks fire is part of
the environment here, so those results are not re-examined.) -/
def runCallbacks : List CB → nvp_decoder → nvp_decoder × List Event
  | [], nvp => (nvp, [])
  | cb :: cbs, nvp =>
    let r := match cb with
      | CB.seq hw fmt => (dec_sequence hw nvp fmt).2
      | CB.pic ok p => (dec_ode ok nvp p).2
      | CB.disp i => (dec_display nvp i).2
    let rest := runCallbacks cbs r.1
    (rest.1, r.2 ++ rest.2)

/-- A user buffer pointer, as far as `is_device_ptr` can observe it:
whether cudaPointerGetAttributes succeeds on it and whether the reported
devicePointer is non-NULL. -/
structure Ptr where
  attrOk : Bool
  devicePtr : Bool
deriving DecidableEq

/-- Model of `is_device_ptr` (decode.c:288-293). -/
def is_device_ptr (p : Ptr) : Bool := p.attrOk && p.devicePtr

/-- Which pointer `source_data` hands back: the caller's own (host) pointer,
or the internal staging buffer. -/
inductive SrcPtr where
  | user
  | internal
deriving DecidableEq

/-- Model of `source_data` (decode.c:302-326).  `reallocOk` is the result of the
realloc growing the staging buffer, `memcpyOk` of the device-to-host
cudaMemcpy.  A host pointer is returned unchanged with no work; a device
pointer grows the staging buffer only when capacity is insufficient, then
copies exactly `ibuf_sz` bytes.  Either failure returns NULL (`none`); the
two are distinguished only by their diagnostic. -/
def source_data (reallocOk memcpyOk : Bool) (nvp : nvp_decoder)
    (ibuf : Ptr) (ibuf_sz : Nat) : Option SrcPtr × nvp_decoder × List Event :=
  if is_device_ptr ibuf then
    if ibuf_sz > nvp.hbuf_sz then
      if !reallocOk then
        (none, nvp, [Event.reallocHost ibuf_sz, Event.errHostAlloc])
      else
        let nvp1 := { nvp with hbuf_sz := ibuf_sz }
        if !memcpyOk then
          (none, nvp1,
            [Event.reallocHost ibuf_sz, Event.copyDtoH ibuf_sz, Event.errHostCopy])
        else
          (some SrcPtr.internal, nvp1,
            [Event.reallocHost ibuf_sz, Event.copyDtoH ibuf_sz])
    else
      if !memcpyOk then
        (none, nvp, [Event.copyDtoH ibuf_sz, Event.errHostCopy])
      else
        (some SrcPtr.internal, nvp, [Event.copyDtoH ibuf_sz])
  else
    (some SrcPtr.user, nvp, [])

/-- Results (0 = cudaSuccess) of the three CUDA calls inside `reorganize`:
the reorganization-kernel submit, the async DtoH copy, and the stream sync. -/
structure ReorgEnv where
  submitRes : Nat
  copyRes : Nat
  syncRes : Nat
deriving DecidableEq

/-- Model of `reorganize` (decode.c:329-367).  Converts into the caller's buffer when
it is device-resident, else into the internal RGB buffer followed by an async
DtoH copy of `d.wdst*d.hdst*3` bytes; then syncs the stream.  Each failing
CUDA result is returned directly as the nvp_err_t value. -/
def reorganize (env : ReorgEnv) (nvp : nvp_decoder) (width height : Nat)
    (obuf : Ptr) : nvp_err × List Event :=
  let tr0 : List Event := [Event.reorgSubmit width height]
  if env.submitRes ≠ 0 then (nvp_err.raw env.submitRes, tr0 ++ [Event.errReorgSubmit])
  else
    let trC : List Event :=
      if !is_device_ptr obuf then [Event.reorgCopy (nvp.d.wdst * nvp.d.hdst * 3)]
      else []
    if !is_device_ptr obuf ∧ env.copyRes ≠ 0 then
      (nvp_err.raw env.copyRes, tr0 ++ trC ++ [Event.errReorgCopy])
    else if env.syncRes ≠ 0 then
      (nvp_err.raw env.syncRes, tr0 ++ trC ++ [Event.reorgSync, Event.errReorgSync])
    else
      (nvp_err.success, tr0 ++ trC ++ [Event.reorgSync])

/-- Hardware environment for one nesting level of `nvp_cuvid_decode`:
the result of each hardware call the frame may make, and the callbacks the
parse call fires. -/
structure FrameEnv where
  parserOk : Bool
  reallocOk : Bool
  memcpyOk : Bool
  parseOk : Bool
  cbs : List CB
  resizeHW : ResizeHW
  mapRes : Nat
  evtRes : Nat
  waitRes : Nat
  reorg : ReorgEnv
  unmapOk : Bool
deriving DecidableEq

/-- The lazy-parser step of `nvp_cuvid_decode` (decode.c:406-411), given that
creation either is unnecessary or succeeds. -/
def parserStep (env : FrameEnv) (nvp : nvp_decoder) : nvp_decoder × List Event :=
  if nvp.parser then (nvp, [])
  else ({ nvp with parser := true }, [Event.createParser])

/-- Result of one body execution of `nvp_cuvid_decode`: either a return with
status/state/trace, or one of the two self-recursion sites (empty packet,
decode.c:440, and dimension mismatch, decode.c:453), both of which resubmit
the identical arguments on the carried state. -/
inductive FrameStep where
  | ret (e : nvp_err) (s : nvp_decoder) (tr : List Event)
  | again (s : nvp_decoder) (tr : List Event)
deriving DecidableEq

/-- The decoder state a frame step carries (the state at the return statement
or at the recursive call). -/
def FrameStep.state : FrameStep → nvp_decoder
  | .ret _ s _ => s
  | .again s _ => s

/-- Model of `nvp_cuvid_decode` from the parse-result check onward (decode.c:426-496):
parse-failure check, empty-packet branch guarded by the `empty` flag,
dimension reconciliation via `resize`, then the stable path
map → event-record → stream-wait → reorganize → unconditional unmap.
`nvp3` is the state after the parse call's callbacks, `tr3` the trace so
far.  A failing unmap is only logged; `reorganize`'s result is returned. -/
def after_parse (env : FrameEnv) (nvp3 : nvp_decoder) (obuf : Ptr)
    (width height : Nat) (tr3 : List Event) : FrameStep :=
  if !env.parseOk then FrameStep.ret nvp_err.edecode nvp3 (tr3 ++ [Event.errParse])
  else if nvp3.d.wsrc = 0 ∨ nvp3.d.hsrc = 0 then
    if nvp3.empty then FrameStep.ret nvp_err.einval nvp3 (tr3 ++ [Event.errMetadataOnly])
    else FrameStep.again { nvp3 with empty := true } tr3
  else
    let nvp4 := { nvp3 with empty := false }
    if nvp4.d.wsrc ≠ nvp4.d.wi ∨ nvp4.d.hsrc ≠ nvp4.d.hi ∨
       nvp4.d.wdst ≠ width ∨ nvp4.d.hdst ≠ height then
      let rz := resize env.resizeHW nvp4 nvp4.d.wsrc nvp4.d.hsrc width height
      FrameStep.again rz.1 (tr3 ++ rz.2)
    else
      let trM := tr3 ++ [Event.mapFrame nvp4.idx]
      if env.mapRes ≠ 0 then
        FrameStep.ret (nvp_err.raw env.mapRes) nvp4 (trM ++ [Event.errMap])
      else if env.evtRes ≠ 0 then
        FrameStep.ret (nvp_err.raw env.evtRes) nvp4
          (trM ++ [Event.eventRecord, Event.errEventRecord])
      else if env.waitRes ≠ 0 then
        FrameStep.ret (nvp_err.raw env.waitRes) nvp4
          (trM ++ [Event.eventRecord, Event.streamWait, Event.errStreamWait])
      else
        let ro := reorganize env.reorg nvp4 width height obuf
        let trU : List Event :=
          if env.unmapOk then [Event.unmapFrame]
          else [Event.unmapFrame, Event.warnUnmapFail]
        FrameStep.ret ro.1 nvp4
          (trM ++ [Event.eventRecord, Event.streamWait] ++ ro.2 ++ trU)

/-- One body execution of `nvp_cuvid_decode` (decode.c:382-497): the type and
argument checks, lazy parser creation, staging via `source_data`, the parse
call with its callbacks, then `after_parse`. -/
def decode_frame (env : FrameEnv) (nvp : nvp_decoder) (ibuf : Ptr) (ibuf_sz : Nat)
    (obuf : Ptr) (width height : Nat) : FrameStep :=
  if nvp.impl_type ≠ ImplType.DECODER then
    FrameStep.ret nvp_err.einval nvp [Event.errBadBackend]
  else if ibuf_sz = 0 then FrameStep.ret nvp_err.einval nvp [Event.errZeroInput]
  else if width = 0 ∨ height = 0 ∨ height % 2 = 1 then
    FrameStep.ret nvp_err.einval nvp [Event.errBadDims]
  else if nvp.parser = false ∧ env.parserOk = false then
    FrameStep.ret nvp_err.edecode nvp [Event.createParser, Event.errCreateParser]
  else
    let ps := parserStep env nvp
    let sd := source_data env.reallocOk env.memcpyOk ps.1 ibuf ibuf_sz
    if sd.1 = none then FrameStep.ret nvp_err.enomem sd.2.1 (ps.2 ++ sd.2.2)
    else
      let cbr := runCallbacks env.cbs sd.2.1
      after_parse env cbr.1 obuf width height
        (ps.2 ++ sd.2.2 ++ [Event.parsePacket ibuf_sz] ++ cbr.2)

/-- Model of `nvp_cuvid_decode` (decode.c:382-497).  The C function recurses on itself
with identical arguments at its two resubmission sites; `decode_frame`
surfaces those sites as `FrameStep.again` and this driver performs the
self-call.  The environment list supplies one hardware-environment record per
nesting level; `none` means the modelled environment ran out before the C
recursion terminated (the C code itself never returns this). -/
def nvp_cuvid_decode : List FrameEnv → nvp_decoder → Ptr → Nat → Ptr → Nat → Nat →
    Option (nvp_err × nvp_decoder × List Event)
  | [], _, _, _, _, _, _ => none
  | env :: rest, nvp, ibuf, ibuf_sz, obuf, width, height =>
    match decode_frame env nvp ibuf ibuf_sz obuf width height with
    | FrameStep.ret e s tr => some (e, s, tr)
    | FrameStep.again s tr =>
      match nvp_cuvid_decode rest s ibuf ibuf_sz obuf width height with
      | none => none
      | some (e, s2, tr2) => some (e, s2, tr ++ tr2)

/-- Model of `nvp_cuvid_encode` (decode.c:500-515): ignores every argument and fails
with NVPIPE_EINVAL after logging.  (The `assert(false)` is compiled out with
NDEBUG.) -/
def nvp_cuvid_encode (nvp : nvp_decoder) (ibuf : Ptr) (ibuf_sz : Nat) (obuf : Ptr)
    (obuf_sz : Nat) (width height : Nat) (format : Nat) :
    nvp_err × nvp_decoder × List Event :=
  (nvp_err.einval, nvp, [Event.errEncodeOnDecoder])

/-- Model of `nvp_cuvid_bitrate` (decode.c:517-524): ignores every argument and fails
with NVPIPE_EINVAL after logging.  (The `assert(false)` is compiled out with
NDEBUG.) -/
def nvp_cuvid_bitrate (nvp : nvp_decoder) (br : Nat) :
    nvp_err × nvp_decoder × List Event :=
  (nvp_err.einval, nvp, [Event.errBitrateOnDecoder])

/-- Path condition: a decode frame passes the type/argument checks, the lazy
parser step, staging and the parse call, reaching the post-parse logic with
callback-updated state `nvp3` and accumulated trace `trPre`. -/
def ReachesParse (env : FrameEnv) (nvp : nvp_decoder) (ibuf : Ptr) (ibuf_sz : Nat)
    (width height : Nat) (nvp3 : nvp_decoder) (trPre : List Event) : Prop :=
  nvp.impl_type = ImplType.DECODER ∧ ibuf_sz ≠ 0 ∧ width ≠ 0 ∧ height ≠ 0 ∧
  height % 2 ≠ 1 ∧ (nvp.parser = true ∨ env.parserOk = true) ∧
  (source_data env.reallocOk env.memcpyOk (parserStep env nvp).1 ibuf ibuf_sz).1 ≠ none ∧
  env.parseOk = true ∧
  nvp3 = (runCallbacks env.cbs
    (source_data env.reallocOk env.memcpyOk (parserStep env nvp).1 ibuf ibuf_sz).2.1).1 ∧
  trPre = (parserStep env nvp).2 ++
    (source_data env.reallocOk env.memcpyOk (parserStep env nvp).1 ibuf ibuf_sz).2.2 ++
    [Event.parsePacket ibuf_sz] ++
    (runCallbacks env.cbs
      (source_data env.reallocOk env.memcpyOk (parserStep env nvp).1 ibuf ibuf_sz).2.1).2

instance (env : FrameEnv) (nvp : nvp_decoder) (ibuf : Ptr) (ibuf_sz : Nat)
    (width height : Nat) (nvp3 : nvp_decoder) (trPre : List Event) :
    Decidable (ReachesParse env nvp ibuf ibuf_sz width height nvp3 trPre) := by
  unfold ReachesParse
  infer_instance


/-! Concrete fixtures used by witnesses and counterexamples. -/

/-- A decoder instance in the reconciled steady state: 640x480 stream,
640x480 requested, parser and decoder live. -/
def nvpStable : nvp_decoder :=
  ⟨ImplType.DECODER, true, true, true, 0, ⟨640, 480, 640, 480, 640, 480⟩, true, false, 0⟩

/-- A decoder that has a parser but has never seen a picture, with the
empty-submission flag already set. -/
def nvpMeta : nvp_decoder :=
  ⟨ImplType.DECODER, false, false, true, 0, ⟨0, 0, 0, 0, 0, 0⟩, false, true, 0⟩

/-- An instance whose impl type is not DECODER. -/
def nvpEnc : nvp_decoder := { nvpStable with impl_type := ImplType.ENCODER }

/-- A host-resident pointer (cudaPointerGetAttributes succeeds, no device
pointer). -/
def hostPtr : Ptr := ⟨true, false⟩

/-- A device-resident pointer. -/
def devPtr : Ptr := ⟨true, true⟩

/-- An environment in which every hardware call succeeds and the parse fires
no callbacks. -/
def envOk : FrameEnv :=
  ⟨true, true, true, true, [], ⟨true, ⟨true, true, true⟩⟩, 0, 0, 0, ⟨0, 0, 0⟩, true⟩

/-- Like `envOk` but the staging device-to-host cudaMemcpy fails. -/
def envCopyFail : FrameEnv := { envOk with memcpyOk := false }

/-- Like `envOk` but growing the host staging buffer fails. -/
def envGrowFail : FrameEnv := { envOk with reallocOk := false }

/-- Like `envOk` but the final cuvidUnmapVideoFrame fails. -/
def envUnmapFail : FrameEnv := { envOk with unmapOk := false }

/-- A sequence format whose chroma layout (monochrome), coding standard
(MPEG-2) and scan type (interlaced) all differ from the supported
configuration, with a supported bit depth. -/
def fmtAlien : CUVIDEOFORMAT := ⟨0, 640, 0, 480, 0, 0, 1, 0, 480⟩

/-- A supported-format sequence with an unhandled (10-bit) luma depth. -/
def fmtDeep : CUVIDEOFORMAT :=
  { fmtAlien with chroma_format := cudaVideoChromaFormat_420,
                  codec := cudaVideoCodec_H264,
                  progressive_sequence := 1,
                  bit_depth_luma_minus8 := 2 }

/-! Helper lemmas. -/

theorem parserStep_empty (env : FrameEnv) (s : nvp_decoder) :
    (parserStep env s).1.empty = s.empty := by
  simp only [parserStep]
  split <;> rfl

theorem source_data_empty (r m : Bool) (s : nvp_decoder) (i : Ptr) (n : Nat) :
    (source_data r m s i n).2.1.empty = s.empty := by
  simp only [source_data]
  split_ifs <;> rfl

theorem decInitialize_empty (hw : InitHW) (s : nvp_decoder) (a b c d : Nat) :
    (decInitialize hw s a b c d).2.1.empty = s.empty := by
  simp only [decInitialize]
  split_ifs <;> rfl

theorem dec_sequence_empty (hw : InitHW) (s : nvp_decoder) (fmt : CUVIDEOFORMAT) :
    (dec_sequence hw s fmt).2.1.empty = s.empty := by
  simp only [dec_sequence]
  split_ifs <;> simp [decInitialize_empty]

theorem dec_ode_empty (ok : Bool) (s : nvp_decoder) (p : CUVIDPICPARAMS) :
    (dec_ode ok s p).2.1.empty = s.empty := by
  simp only [dec_ode]
  split_ifs <;> rfl

theorem dec_display_empty (s : nvp_decoder) (i : Nat) :
    (dec_display s i).2.1.empty = s.empty := rfl

theorem runCallbacks_empty (cbs : List CB) (s : nvp_decoder) :
    (runCallbacks cbs s).1.empty = s.empty := by
  induction cbs generalizing s with
  | nil => rfl
  | cons cb cbs ih =>
    cases cb with
    | seq hw fmt =>
      simp only [runCallbacks]
      rw [ih]
      exact dec_sequence_empty hw s fmt
    | pic ok p =>
      simp only [runCallbacks]
      rw [ih]
      exact dec_ode_empty ok s p
    | disp i =>
      simp only [runCallbacks]
      rw [ih]
      exact dec_display_empty s i

theorem decode_cons_ret {env : FrameEnv} {rest : List FrameEnv} {nvp : nvp_decoder}
    {ibuf : Ptr} {ibuf_sz : Nat} {obuf : Ptr} {width height : Nat}
    {e : nvp_err} {s : nvp_decoder} {tr : List Event}
    (h : decode_frame env nvp ibuf ibuf_sz obuf width height = FrameStep.ret e s tr) :
    nvp_cuvid_decode (env :: rest) nvp ibuf ibuf_sz obuf width height = some (e, s, tr) := by
  simp only [nvp_cuvid_decode, h]

theorem decode_cons_again {env : FrameEnv} {rest : List FrameEnv} {nvp : nvp_decoder}
    {ibuf : Ptr} {ibuf_sz : Nat} {obuf : Ptr} {width height : Nat}
    {s : nvp_decoder} {tr : List Event}
    (h : decode_frame env nvp ibuf ibuf_sz obuf width height = FrameStep.again s tr) :
    nvp_cuvid_decode (env :: rest) nvp ibuf ibuf_sz obuf width height =
      Option.map (fun r => (r.1, r.2.1, tr ++ r.2.2))
        (nvp_cuvid_decode rest s ibuf ibuf_sz obuf width height) := by
  simp only [nvp_cuvid_decode, h]
  cases hr : nvp_cuvid_decode rest s ibuf ibuf_sz obuf width height with
  | none => rfl
  | some v =>
    obtain ⟨e2, s2, tr2⟩ := v
    rfl

theorem decode_frame_eq_after_parse {env : FrameEnv} {nvp : nvp_decoder} {ibuf : Ptr}
    {ibuf_sz : Nat} {width height : Nat} {nvp3 : nvp_decoder} {trPre : List Event}
    (obuf : Ptr)
    (h : ReachesParse env nvp ibuf ibuf_sz width height nvp3 trPre) :
    decode_frame env nvp ibuf ibuf_sz obuf width height =
      after_parse env nvp3 obuf width height trPre := by
  obtain ⟨h1, h2, h3, h4, h5, h6, h7, h8, h9, h10⟩ := h
  simp only [decode_frame]
  rw [if_neg (by simp [h1]), if_neg h2, if_neg (by simp [h3, h4, h5]),
    if_neg (by rcases h6 with h6 | h6 <;> simp [h6]), if_neg h7, h9, h10]

theorem frame_ret_success_dims {env : FrameEnv} {nvp : nvp_decoder} {ibuf : Ptr}
    {ibuf_sz : Nat} {obuf : Ptr} {width height : Nat} {s : nvp_decoder} {tr : List Event}
    (h : decode_frame env nvp ibuf ibuf_sz obuf width height =
      FrameStep.ret nvp_err.success s tr) :
    s.d.wi = s.d.wsrc ∧ s.d.hi = s.d.hsrc ∧ s.d.wdst = width ∧ s.d.hdst = height := by
  simp only [decode_frame] at h
  split at h
  · simp at h
  split at h
  · simp at h
  split at h
  · simp at h
  split at h
  · simp at h
  split at h
  · simp at h
  simp only [after_parse] at h
  split at h
  · simp at h
  split at h
  · split at h
    · simp at h
    · simp at h
  · split at h
    · simp at h
    · rename_i hstable hmatch
      split at h
      · simp at h
      split at h
      · simp at h
      split at h
      · simp at h
      rw [FrameStep.ret.injEq] at h
      obtain ⟨-, hs, -⟩ := h
      subst hs
      push_neg at hmatch
      obtain ⟨e1, e2, e3, e4⟩ := hmatch
      exact ⟨e1.symm, e2.symm, e3, e4⟩

/-- C1: for every decode call that returns success, afterwards the decoder's
stored input dimensions equal the source dimensions reported by the last
decoded picture ((wi,hi) = (wsrc,hsrc)) and the stored output dimensions
equal the caller's requested output size ((wdst,hdst) = (width,height)). -/
theorem c1_success_dims (envs : List FrameEnv) (nvp : nvp_decoder) (ibuf : Ptr)
    (ibuf_sz : Nat) (obuf : Ptr) (width height : Nat) (s : nvp_decoder)
    (tr : List Event)
    (h : nvp_cuvid_decode envs nvp ibuf ibuf_sz obuf width height =
      some (nvp_err.success, s, tr)) :
    s.d.wi = s.d.wsrc ∧ s.d.hi = s.d.hsrc ∧ s.d.wdst = width ∧ s.d.hdst = height := by
  induction envs generalizing nvp tr with
  | nil => simp [nvp_cuvid_decode] at h
  | cons env rest ih =>
    cases hf : decode_frame env nvp ibuf ibuf_sz obuf width height with
    | ret e s1 tr1 =>
      rw [decode_cons_ret hf] at h
      rw [Option.some.injEq, Prod.mk.injEq, Prod.mk.injEq] at h
      obtain ⟨he, hs, -⟩ := h
      subst hs
      subst he
      exact frame_ret_success_dims hf
    | again s1 tr1 =>
      rw [decode_cons_again hf] at h
      cases hr : nvp_cuvid_decode rest s1 ibuf ibuf_sz obuf width height with
      | none => rw [hr] at h; exact Option.noConfusion h
      | some v =>
        obtain ⟨e2, s2, tr2⟩ := v
        rw [hr] at h
        simp only [Option.map_some', Option.some.injEq, Prod.mk.injEq] at h
        obtain ⟨he, hs, -⟩ := h
        subst he
        subst hs
        exact ih s1 tr2 hr

/-- Witness for C1: a concrete stable-state call that succeeds. -/
theorem c1_success_dims_witness :
    nvp_cuvid_decode [envOk] nvpStable hostPtr 100 hostPtr 640 480 =
      some (nvp_err.success, nvpStable,
        [Event.parsePacket 100, Event.mapFrame 0, Event.eventRecord, Event.streamWait,
         Event.reorgSubmit 640 480, Event.reorgCopy (640 * 480 * 3), Event.reorgSync,
         Event.unmapFrame]) ∧
    nvpStable.d.wi = nvpStable.d.wsrc ∧ nvpStable.d.hi = nvpStable.d.hsrc ∧
    nvpStable.d.wdst = 640 ∧ nvpStable.d.hdst = 480 :=
  ⟨by decide,
   c1_success_dims [envOk] nvpStable hostPtr 100 hostPtr 640 480 nvpStable
     [Event.parsePacket 100, Event.mapFrame 0, Event.eventRecord, Event.streamWait,
      Event.reorgSubmit 640 480, Event.reorgCopy (640 * 480 * 3), Event.reorgSync,
      Event.unmapFrame] (by decide)⟩

theorem resize_empty (hw : ResizeHW) (s : nvp_decoder) (a b c d : Nat) :
    (resize hw s a b c d).1.empty = s.empty := by
  simp only [resize]
  rw [decInitialize_empty]

/-- C2: for every decode call whose parse produces no picture (source
dimensions still zero): if the empty-submission flag is already set the call
returns invalid-argument; otherwise it sets the flag and resubmits the
identical arguments exactly once, so the metadata-only recursion never
exceeds depth 2 (two metadata-only parses in a row return invalid-argument
without consuming any further environment); on any call where a picture is
produced the flag is cleared. -/
theorem c2_metadata_recursion (env : FrameEnv) (rest : List FrameEnv)
    (nvp nvp3 : nvp_decoder) (ibuf : Ptr) (ibuf_sz : Nat) (obuf : Ptr)
    (width height : Nat) (trPre : List Event)
    (h : ReachesParse env nvp ibuf ibuf_sz width height nvp3 trPre) :
    (nvp3.d.wsrc = 0 ∨ nvp3.d.hsrc = 0 →
      (nvp3.empty = true →
        nvp_cuvid_decode (env :: rest) nvp ibuf ibuf_sz obuf width height =
          some (nvp_err.einval, nvp3, trPre ++ [Event.errMetadataOnly])) ∧
      (nvp3.empty = false →
        nvp_cuvid_decode (env :: rest) nvp ibuf ibuf_sz obuf width height =
          Option.map (fun r => (r.1, r.2.1, trPre ++ r.2.2))
            (nvp_cuvid_decode rest { nvp3 with empty := true } ibuf ibuf_sz obuf
              width height))) ∧
    (nvp3.d.wsrc ≠ 0 → nvp3.d.hsrc ≠ 0 →
      (decode_frame env nvp ibuf ibuf_sz obuf width height).state.empty = false) ∧
    (∀ (env2 : FrameEnv) (rest2 : List FrameEnv) (nvp3b : nvp_decoder)
        (trPre2 : List Event),
      nvp3.d.wsrc = 0 ∨ nvp3.d.hsrc = 0 →
      nvp3.empty = false →
      ReachesParse env2 { nvp3 with empty := true } ibuf ibuf_sz width height
        nvp3b trPre2 →
      nvp3b.d.wsrc = 0 ∨ nvp3b.d.hsrc = 0 →
      nvp_cuvid_decode (env :: env2 :: rest2) nvp ibuf ibuf_sz obuf width height =
        some (nvp_err.einval, nvp3b, trPre ++ (trPre2 ++ [Event.errMetadataOnly]))) := by
  have hAP := decode_frame_eq_after_parse obuf h
  have hparse : env.parseOk = true := h.2.2.2.2.2.2.2.1
  refine ⟨fun hz => ⟨fun hflag => ?_, fun hflag => ?_⟩, fun hw0 hh0 => ?_,
    fun env2 rest2 nvp3b trPre2 hz hflag h2 hz2 => ?_⟩
  · refine decode_cons_ret ?_
    rw [hAP]
    simp only [after_parse]
    rw [if_neg (by simp [hparse]), if_pos hz, if_pos hflag]
  · refine Eq.trans (decode_cons_again ?_) rfl
    rw [hAP]
    simp only [after_parse]
    rw [if_neg (by simp [hparse]), if_pos hz, if_neg (by simp [hflag])]
  · rw [hAP]
    simp only [after_parse]
    rw [if_neg (by simp [hparse]), if_neg (by simp [hw0, hh0])]
    split
    · simp only [FrameStep.state]
      rw [resize_empty]
    · split
      · rfl
      · split
        · rfl
        · split
          · rfl
          · rfl
  · have e1 : decode_frame env nvp ibuf ibuf_sz obuf width height =
        FrameStep.again { nvp3 with empty := true } trPre := by
      rw [hAP]
      simp only [after_parse]
      rw [if_neg (by simp [hparse]), if_pos hz, if_neg (by simp [hflag])]
    have hparse2 : env2.parseOk = true := h2.2.2.2.2.2.2.2.1
    have hb : nvp3b.empty = true := by
      have hb1 := h2.2.2.2.2.2.2.2.2.1
      rw [hb1, runCallbacks_empty, source_data_empty, parserStep_empty]
    have e2 : decode_frame env2 { nvp3 with empty := true } ibuf ibuf_sz obuf
        width height =
        FrameStep.ret nvp_err.einval nvp3b (trPre2 ++ [Event.errMetadataOnly]) := by
      rw [decode_frame_eq_after_parse obuf h2]
      simp only [after_parse]
      rw [if_neg (by simp [hparse2]), if_pos hz2, if_pos hb]
    rw [decode_cons_again e1, decode_cons_ret e2]
    rfl

/-- Witness for C2: a parser-equipped decoder with the empty-submission flag
already set receives another metadata-only packet and fails with
invalid-argument. -/
theorem c2_metadata_recursion_witness :
    ReachesParse envOk nvpMeta hostPtr 10 640 480 nvpMeta [Event.parsePacket 10] ∧
    nvp_cuvid_decode [envOk] nvpMeta hostPtr 10 hostPtr 640 480 =
      some (nvp_err.einval, nvpMeta,
        [Event.parsePacket 10] ++ [Event.errMetadataOnly]) :=
  ⟨by decide,
   ((c2_metadata_recursion envOk [] nvpMeta nvpMeta hostPtr 10 hostPtr 640 480
      [Event.parsePacket 10] (by decide)).1 (by decide)).1 (by decide)⟩

theorem resize_filter_isResource (hw : ResizeHW) (s : nvp_decoder) (a b c d : Nat)
    (hinit : hw.init = InitHW.mk true true true) (hdec : s.decoder = true) :
    (resize hw s a b c d).2.filter Event.isResource =
      [Event.destroyDecoder, Event.createDecoder a b c d] ++
      (if c ≠ s.d.wdst ∨ d ≠ s.d.hdst then
        (if s.rgb then [Event.freeRGB] else []) ++ [Event.allocRGB (c * d * 3)]
       else []) := by
  by_cases hch : c ≠ s.d.wdst ∨ d ≠ s.d.hdst <;>
    by_cases hrgb : s.rgb <;>
      by_cases hd : hw.destroyOk <;>
        simp [resize, decInitialize, hinit, hdec, hch, hrgb, hd, Event.isResource,
          List.filter]

/-- C3: on a mismatch between reported source size and (wi,hi), or requested
output size and (wdst,hdst), exactly one decode-resource destroy-and-recreate
occurs (input size = (wsrc,hsrc), target size = requested) followed by one
resubmission with identical arguments; the conversion buffer is freed and
reallocated at width*height*3 bytes exactly when the requested output size
differs from the stored (wdst,hdst); and a call whose dimensions all match
performs no resource recreation after the parse. -/
theorem c3_resize_reconcile (env : FrameEnv) (rest : List FrameEnv)
    (nvp nvp3 : nvp_decoder) (ibuf : Ptr) (ibuf_sz : Nat) (obuf : Ptr)
    (width height : Nat) (trPre : List Event)
    (h : ReachesParse env nvp ibuf ibuf_sz width height nvp3 trPre)
    (hw0 : nvp3.d.wsrc ≠ 0) (hh0 : nvp3.d.hsrc ≠ 0) :
    (nvp3.d.wsrc ≠ nvp3.d.wi ∨ nvp3.d.hsrc ≠ nvp3.d.hi ∨
     nvp3.d.wdst ≠ width ∨ nvp3.d.hdst ≠ height →
      nvp_cuvid_decode (env :: rest) nvp ibuf ibuf_sz obuf width height =
        Option.map (fun r => (r.1, r.2.1,
            (trPre ++ (resize env.resizeHW { nvp3 with empty := false }
              nvp3.d.wsrc nvp3.d.hsrc width height).2) ++ r.2.2))
          (nvp_cuvid_decode rest
            (resize env.resizeHW { nvp3 with empty := false }
              nvp3.d.wsrc nvp3.d.hsrc width height).1
            ibuf ibuf_sz obuf width height)) ∧
    (env.resizeHW.init = InitHW.mk true true true → nvp3.decoder = true →
      (resize env.resizeHW { nvp3 with empty := false }
          nvp3.d.wsrc nvp3.d.hsrc width height).2.filter Event.isResource =
        [Event.destroyDecoder,
         Event.createDecoder nvp3.d.wsrc nvp3.d.hsrc width height] ++
        (if width ≠ nvp3.d.wdst ∨ height ≠ nvp3.d.hdst then
          (if nvp3.rgb then [Event.freeRGB] else []) ++
            [Event.allocRGB (width * height * 3)]
         else [])) ∧
    (nvp3.d.wsrc = nvp3.d.wi → nvp3.d.hsrc = nvp3.d.hi →
     nvp3.d.wdst = width → nvp3.d.hdst = height →
      ∃ e trRest,
        nvp_cuvid_decode (env :: rest) nvp ibuf ibuf_sz obuf width height =
          some (e, { nvp3 with empty := false }, trPre ++ trRest) ∧
        trRest.filter Event.isResource = []) := by
  have hAP := decode_frame_eq_after_parse obuf h
  have hparse : env.parseOk = true := h.2.2.2.2.2.2.2.1
  refine ⟨fun hmis => ?_, fun hinit hdec => ?_, fun he1 he2 he3 he4 => ?_⟩
  · have e1 : decode_frame env nvp ibuf ibuf_sz obuf width height =
        FrameStep.again
          (resize env.resizeHW { nvp3 with empty := false }
            nvp3.d.wsrc nvp3.d.hsrc width height).1
          (trPre ++ (resize env.resizeHW { nvp3 with empty := false }
            nvp3.d.wsrc nvp3.d.hsrc width height).2) := by
      rw [hAP]
      simp only [after_parse]
      rw [if_neg (by simp [hparse]), if_neg (by simp [hw0, hh0]), if_pos hmis]
    rw [decode_cons_again e1]
  · exact resize_filter_isResource env.resizeHW { nvp3 with empty := false }
      nvp3.d.wsrc nvp3.d.hsrc width height hinit hdec
  · have hstable : ¬({ nvp3 with empty := false }.d.wsrc ≠
        { nvp3 with empty := false }.d.wi ∨
        { nvp3 with empty := false }.d.hsrc ≠ { nvp3 with empty := false }.d.hi ∨
        { nvp3 with empty := false }.d.wdst ≠ width ∨
        { nvp3 with empty := false }.d.hdst ≠ height) := by
      simp [he1, he2, he3, he4]
    by_cases hm : env.mapRes ≠ 0
    · refine ⟨nvp_err.raw env.mapRes, [Event.mapFrame nvp3.idx, Event.errMap], ?_, rfl⟩
      have ef : decode_frame env nvp ibuf ibuf_sz obuf width height =
          FrameStep.ret (nvp_err.raw env.mapRes) { nvp3 with empty := false }
            ((trPre ++ [Event.mapFrame nvp3.idx]) ++ [Event.errMap]) := by
        rw [hAP]
        simp only [after_parse]
        rw [if_neg (by simp [hparse]), if_neg (by simp [hw0, hh0]), if_neg hstable,
          if_pos hm]
      rw [decode_cons_ret ef]
      simp [List.append_assoc]
    · by_cases he : env.evtRes ≠ 0
      · refine ⟨nvp_err.raw env.evtRes,
          [Event.mapFrame nvp3.idx, Event.eventRecord, Event.errEventRecord], ?_, rfl⟩
        have ef : decode_frame env nvp ibuf ibuf_sz obuf width height =
            FrameStep.ret (nvp_err.raw env.evtRes) { nvp3 with empty := false }
              ((trPre ++ [Event.mapFrame nvp3.idx]) ++
                [Event.eventRecord, Event.errEventRecord]) := by
          rw [hAP]
          simp only [after_parse]
          rw [if_neg (by simp [hparse]), if_neg (by simp [hw0, hh0]), if_neg hstable,
            if_neg hm, if_pos he]
        rw [decode_cons_ret ef]
        simp [List.append_assoc]
      · by_cases hwt : env.waitRes ≠ 0
        · refine ⟨nvp_err.raw env.waitRes,
            [Event.mapFrame nvp3.idx, Event.eventRecord, Event.streamWait,
             Event.errStreamWait], ?_, rfl⟩
          have ef : decode_frame env nvp ibuf ibuf_sz obuf width height =
              FrameStep.ret (nvp_err.raw env.waitRes) { nvp3 with empty := false }
                ((trPre ++ [Event.mapFrame nvp3.idx]) ++
                  [Event.eventRecord, Event.streamWait, Event.errStreamWait]) := by
            rw [hAP]
            simp only [after_parse]
            rw [if_neg (by simp [hparse]), if_neg (by simp [hw0, hh0]), if_neg hstable,
              if_neg hm, if_neg he, if_pos hwt]
          rw [decode_cons_ret ef]
          simp [List.append_assoc]
        · refine ⟨(reorganize env.reorg { nvp3 with empty := false } width height
              obuf).1,
            [Event.mapFrame nvp3.idx, Event.eventRecord, Event.streamWait] ++
              (reorganize env.reorg { nvp3 with empty := false } width height
                obuf).2 ++
              (if env.unmapOk then [Event.unmapFrame]
               else [Event.unmapFrame, Event.warnUnmapFail]), ?_, ?_⟩
          · have ef : decode_frame env nvp ibuf ibuf_sz obuf width height =
                FrameStep.ret
                  (reorganize env.reorg { nvp3 with empty := false } width height
                    obuf).1
                  { nvp3 with empty := false }
                  ((trPre ++ [Event.mapFrame nvp3.idx]) ++
                    [Event.eventRecord, Event.streamWait] ++
                    (reorganize env.reorg { nvp3 with empty := false } width height
                      obuf).2 ++
                    (if env.unmapOk then [Event.unmapFrame]
                     else [Event.unmapFrame, Event.warnUnmapFail])) := by
              rw [hAP]
              simp only [after_parse]
              rw [if_neg (by simp [hparse]), if_neg (by simp [hw0, hh0]),
                if_neg hstable, if_neg hm, if_neg he, if_neg hwt]
            rw [decode_cons_ret ef]
            simp [List.append_assoc]
          · simp only [reorganize]
            split_ifs <;> simp [Event.isResource, List.filter]

/-- Witness for C3: a stable 640x480 decoder asked for 320x240 output takes
the resize path: one destroy, one create with input 640x480 / target 320x240,
and the conversion buffer swapped for a 320*240*3-byte one. -/
theorem c3_resize_reconcile_witness :
    ReachesParse envOk nvpStable hostPtr 100 320 240 nvpStable
      [Event.parsePacket 100] ∧
    (resize envOk.resizeHW { nvpStable with empty := false }
        nvpStable.d.wsrc nvpStable.d.hsrc 320 240).2.filter Event.isResource =
      [Event.destroyDecoder, Event.createDecoder 640 480 320 240, Event.freeRGB,
       Event.allocRGB 230400] := by
  refine ⟨by decide, ?_⟩
  have hc := (c3_resize_reconcile envOk [] nvpStable nvpStable hostPtr 100 hostPtr
    320 240 [Event.parsePacket 100] (by decide) (by decide) (by decide)).2.1
    (by decide) (by decide)
  simpa [nvpStable] using hc

/-- C4: a decode call with zero input length, zero requested width or height,
or odd requested height returns invalid-argument, and no hardware operation
(parser creation, staging, parse, map, ...) appears in its trace. -/
theorem c4_precondition_einval (env : FrameEnv) (rest : List FrameEnv)
    (nvp : nvp_decoder) (ibuf : Ptr) (ibuf_sz : Nat) (obuf : Ptr)
    (width height : Nat)
    (h : ibuf_sz = 0 ∨ width = 0 ∨ height = 0 ∨ height % 2 = 1) :
    ∃ tr, nvp_cuvid_decode (env :: rest) nvp ibuf ibuf_sz obuf width height =
        some (nvp_err.einval, nvp, tr) ∧ tr.filter Event.isHW = [] := by
  by_cases ht : nvp.impl_type = ImplType.DECODER
  · by_cases h0 : ibuf_sz = 0
    · refine ⟨[Event.errZeroInput], decode_cons_ret ?_, rfl⟩
      simp only [decode_frame]
      rw [if_neg (by simp [ht]), if_pos h0]
    · have hwh : width = 0 ∨ height = 0 ∨ height % 2 = 1 := by tauto
      refine ⟨[Event.errBadDims], decode_cons_ret ?_, rfl⟩
      simp only [decode_frame]
      rw [if_neg (by simp [ht]), if_neg h0, if_pos hwh]
  · refine ⟨[Event.errBadBackend], decode_cons_ret ?_, rfl⟩
    simp only [decode_frame]
    rw [if_pos ht]

/-- Witness for C4: zero-length input on a healthy decoder. -/
theorem c4_precondition_einval_witness :
    ∃ tr, nvp_cuvid_decode [envOk] nvpStable hostPtr 0 hostPtr 640 480 =
        some (nvp_err.einval, nvpStable, tr) ∧ tr.filter Event.isHW = [] :=
  c4_precondition_einval envOk [] nvpStable hostPtr 0 hostPtr 640 480 (Or.inl rfl)

/-- C10: a decode call on an instance whose impl type is not DECODER returns
invalid-argument immediately: the trace holds only the backend-configuration
diagnostic — no argument diagnostic is reached and no parser, staging or
hardware work appears — and the state is untouched, for arbitrary (even
invalid) arguments. -/
theorem c10_type_check_first (env : FrameEnv) (rest : List FrameEnv)
    (nvp : nvp_decoder) (ibuf : Ptr) (ibuf_sz : Nat) (obuf : Ptr)
    (width height : Nat)
    (h : nvp.impl_type ≠ ImplType.DECODER) :
    nvp_cuvid_decode (env :: rest) nvp ibuf ibuf_sz obuf width height =
      some (nvp_err.einval, nvp, [Event.errBadBackend]) ∧
    List.filter Event.isHW [Event.errBadBackend] = [] := by
  refine ⟨decode_cons_ret ?_, rfl⟩
  simp only [decode_frame]
  rw [if_pos h]

/-- Witness for C10: an encoder-typed instance with perfectly valid decode
arguments still fails with invalid-argument before anything runs. -/
theorem c10_type_check_first_witness :
    nvp_cuvid_decode [envOk] nvpEnc hostPtr 100 hostPtr 640 480 =
      some (nvp_err.einval, nvpEnc, [Event.errBadBackend]) ∧
    List.filter Event.isHW [Event.errBadBackend] = [] :=
  c10_type_check_first envOk [] nvpEnc hostPtr 100 hostPtr 640 480 (by decide)


/-- Counterexample for C5: a sequence whose chroma layout, coding standard
and scan type all differ from the supported configuration (4:2:0, H.264,
progressive) is NOT rejected: with a supported bit depth the callback
returns 1 (continue), emits no diagnostic and leaves the state untouched.
In the C source those three fields are checked only by `assert()`, which is
compiled out under NDEBUG (and aborts the process — fatal, not recoverable —
in a debug build). -/
theorem c5_sequence_validation_cex :
    dec_sequence (InitHW.mk true true true) nvpStable fmtAlien =
      (1, nvpStable, []) ∧
    fmtAlien.chroma_format ≠ cudaVideoChromaFormat_420 ∧
    fmtAlien.codec ≠ cudaVideoCodec_H264 ∧
    fmtAlien.progressive_sequence ≠ 1 := by decide

/-- C5 (amended): only an unhandled luma bit depth is rejected as a
recoverable no-op — the callback returns the stop flag 0 with a WARN
diagnostic and an unchanged state; chroma layout, coding standard and scan
type are not examined at all at runtime (release semantics), so the
callback's behavior is independent of them. -/
theorem c5_bit_depth_rejection (hw : InitHW) (nvp : nvp_decoder)
    (fmt : CUVIDEOFORMAT) (h : fmt.bit_depth_luma_minus8 ≠ 0) :
    dec_sequence hw nvp fmt =
      (0, nvp,
        (if fmt.display_right > MAX_WIDTH ∨ fmt.display_bottom > MAX_HEIGHT then
          [Event.warnTooLarge] else []) ++ [Event.warnBitDepth]) ∧
    ∀ c k p, dec_sequence hw nvp
        { fmt with chroma_format := c, codec := k, progressive_sequence := p } =
      dec_sequence hw nvp fmt := by
  constructor
  · simp only [dec_sequence]
    rw [if_pos h]
  · intro c k p
    rfl

/-- Witness for the amended C5: a 10-bit stream is rejected with the stop
flag and the bit-depth diagnostic. -/
theorem c5_bit_depth_rejection_witness :
    fmtDeep.bit_depth_luma_minus8 ≠ 0 ∧
    dec_sequence (InitHW.mk true true true) nvpStable fmtDeep =
      (0, nvpStable,
        (if fmtDeep.display_right > MAX_WIDTH ∨ fmtDeep.display_bottom > MAX_HEIGHT
         then [Event.warnTooLarge] else []) ++ [Event.warnBitDepth]) :=
  ⟨by decide,
   (c5_bit_depth_rejection (InitHW.mk true true true) nvpStable fmtDeep
     (by decide)).1⟩

/-- Counterexample for C6: a failed device-to-host staging transfer is NOT
reported as a condition distinct from out-of-memory — both a growth failure
and a copy failure make the decode call return NVPIPE_ENOMEM; only the
logged diagnostics differ. -/
theorem c6_staging_cex :
    nvp_cuvid_decode [envGrowFail] nvpStable devPtr 100 hostPtr 640 480 =
      some (nvp_err.enomem, nvpStable,
        [Event.reallocHost 100, Event.errHostAlloc]) ∧
    nvp_cuvid_decode [envCopyFail] nvpStable devPtr 100 hostPtr 640 480 =
      some (nvp_err.enomem, { nvpStable with hbuf_sz := 100 },
        [Event.reallocHost 100, Event.copyDtoH 100, Event.errHostCopy]) := by decide

/-- C6 (amended): staging returns a host-resident input pointer unchanged
(zero-copy); for device-resident input it grows the host buffer only when
capacity is insufficient and copies exactly the input length, each failure
being attempted once (no retry); a growth failure and a failed
device-to-host transfer are both surfaced by the decode call as the
out-of-memory condition, distinguished only by their diagnostics. -/
theorem c6_staging (r m : Bool) (nvp : nvp_decoder) (ibuf : Ptr) (ibuf_sz : Nat) :
    (is_device_ptr ibuf = false →
      source_data r m nvp ibuf ibuf_sz = (some SrcPtr.user, nvp, [])) ∧
    (is_device_ptr ibuf = true → ibuf_sz ≤ nvp.hbuf_sz →
      source_data r m nvp ibuf ibuf_sz =
        ((if m then some SrcPtr.internal else none), nvp,
         [Event.copyDtoH ibuf_sz] ++ if m then [] else [Event.errHostCopy])) ∧
    (is_device_ptr ibuf = true → nvp.hbuf_sz < ibuf_sz → r = false →
      source_data r m nvp ibuf ibuf_sz =
        (none, nvp, [Event.reallocHost ibuf_sz, Event.errHostAlloc])) ∧
    (is_device_ptr ibuf = true → nvp.hbuf_sz < ibuf_sz → r = true →
      source_data r m nvp ibuf ibuf_sz =
        ((if m then some SrcPtr.internal else none),
         { nvp with hbuf_sz := ibuf_sz },
         [Event.reallocHost ibuf_sz, Event.copyDtoH ibuf_sz] ++
           if m then [] else [Event.errHostCopy])) ∧
    (∀ (env : FrameEnv) (rest : List FrameEnv) (s : nvp_decoder) (obuf : Ptr)
        (width height : Nat),
      env.reallocOk = r → env.memcpyOk = m →
      s.impl_type = ImplType.DECODER → ibuf_sz ≠ 0 → width ≠ 0 → height ≠ 0 →
      height % 2 ≠ 1 → (s.parser = true ∨ env.parserOk = true) →
      (source_data r m (parserStep env s).1 ibuf ibuf_sz).1 = none →
      nvp_cuvid_decode (env :: rest) s ibuf ibuf_sz obuf width height =
        some (nvp_err.enomem,
          (source_data r m (parserStep env s).1 ibuf ibuf_sz).2.1,
          (parserStep env s).2 ++
            (source_data r m (parserStep env s).1 ibuf ibuf_sz).2.2)) := by
  refine ⟨fun hd => ?_, fun hd hle => ?_, fun hd hlt hr => ?_, fun hd hlt hr => ?_,
    fun env rest s obuf width height hr hm ht h0 hw0 hh0 hodd hp hnone => ?_⟩
  · simp only [source_data]
    rw [if_neg (by simp [hd])]
  · cases m <;>
      simp [source_data, hd, show ¬ibuf_sz > nvp.hbuf_sz from by omega]
  · subst hr
    simp [source_data, hd, show ibuf_sz > nvp.hbuf_sz from hlt]
  · subst hr
    cases m <;>
      simp [source_data, hd, show ibuf_sz > nvp.hbuf_sz from hlt]
  · subst hr
    subst hm
    refine decode_cons_ret ?_
    simp only [decode_frame]
    rw [if_neg (by simp [ht]), if_neg h0, if_neg (by simp [hw0, hh0, hodd]),
      if_neg (by rcases hp with hp | hp <;> simp [hp]), if_pos hnone]

/-- Witness for the amended C6: a too-small staging buffer whose growth
fails yields the NULL/out-of-memory staging result. -/
theorem c6_staging_witness :
    is_device_ptr devPtr = true ∧ nvpStable.hbuf_sz < 100 ∧
    source_data false true nvpStable devPtr 100 =
      (none, nvpStable, [Event.reallocHost 100, Event.errHostAlloc]) :=
  ⟨by decide, by decide,
   (c6_staging false true nvpStable devPtr 100).2.2.1 (by decide) (by decide) rfl⟩

/-- C7: when the decoded surface was mapped and the conversion step ran, the
surface is unmapped before the call returns whatever `reorganize`'s outcome,
an unmap failure only adds a warning to the trace, and the call returns
exactly `reorganize`'s result. -/
theorem c7_unmap_always (env : FrameEnv) (rest : List FrameEnv)
    (nvp nvp3 : nvp_decoder) (ibuf : Ptr) (ibuf_sz : Nat) (obuf : Ptr)
    (width height : Nat) (trPre : List Event)
    (h : ReachesParse env nvp ibuf ibuf_sz width height nvp3 trPre)
    (hw0 : nvp3.d.wsrc ≠ 0) (hh0 : nvp3.d.hsrc ≠ 0)
    (he1 : nvp3.d.wsrc = nvp3.d.wi) (he2 : nvp3.d.hsrc = nvp3.d.hi)
    (he3 : nvp3.d.wdst = width) (he4 : nvp3.d.hdst = height)
    (hm : env.mapRes = 0) (hev : env.evtRes = 0) (hwt : env.waitRes = 0) :
    nvp_cuvid_decode (env :: rest) nvp ibuf ibuf_sz obuf width height =
      some ((reorganize env.reorg { nvp3 with empty := false } width height obuf).1,
        { nvp3 with empty := false },
        trPre ++ [Event.mapFrame nvp3.idx] ++ [Event.eventRecord, Event.streamWait] ++
          (reorganize env.reorg { nvp3 with empty := false } width height obuf).2 ++
          (if env.unmapOk then [Event.unmapFrame]
           else [Event.unmapFrame, Event.warnUnmapFail])) ∧
    Event.unmapFrame ∈
      (trPre ++ [Event.mapFrame nvp3.idx] ++ [Event.eventRecord, Event.streamWait] ++
        (reorganize env.reorg { nvp3 with empty := false } width height obuf).2 ++
        (if env.unmapOk then [Event.unmapFrame]
         else [Event.unmapFrame, Event.warnUnmapFail])) := by
  have hAP := decode_frame_eq_after_parse obuf h
  have hparse : env.parseOk = true := h.2.2.2.2.2.2.2.1
  constructor
  · refine decode_cons_ret ?_
    rw [hAP]
    simp only [after_parse]
    rw [if_neg (by simp [hparse]), if_neg (by simp [hw0, hh0]),
      if_neg (by simp [he1, he2, he3, he4]), if_neg (by simp [hm]),
      if_neg (by simp [hev]), if_neg (by simp [hwt])]
  · by_cases hu : env.unmapOk <;> simp [hu]

/-- Witness for C7: a stable-state frame whose unmap fails still returns the
conversion result (success), with the unmap and its warning in the trace. -/
theorem c7_unmap_always_witness :
    nvp_cuvid_decode [envUnmapFail] nvpStable hostPtr 100 hostPtr 640 480 =
      some (nvp_err.success, nvpStable,
        [Event.parsePacket 100, Event.mapFrame 0, Event.eventRecord,
         Event.streamWait, Event.reorgSubmit 640 480, Event.reorgCopy 921600,
         Event.reorgSync, Event.unmapFrame, Event.warnUnmapFail]) := by
  have hc := (c7_unmap_always envUnmapFail [] nvpStable nvpStable hostPtr 100
    hostPtr 640 480 [Event.parsePacket 100] (by decide) (by decide) (by decide)
    rfl rfl rfl rfl rfl rfl rfl).1
  exact hc.trans (by decide)

/-- C8: the decode-submission callback records, on success, the source
dimensions as PicWidthInMbs*16 and FrameHeightInMbs*16 (hence multiples of
16) and returns 1; on a decode failure it returns 0 and leaves the stored
dimensions (indeed the whole state) unchanged. -/
theorem c8_dec_ode (ok : Bool) (nvp : nvp_decoder) (pic : CUVIDPICPARAMS) :
    (ok = true →
      dec_ode ok nvp pic =
        (1,
         { nvp with
            d := { nvp.d with wsrc := pic.PicWidthInMbs * 16,
                              hsrc := pic.FrameHeightInMbs * 16 } },
         [Event.decodePicture]) ∧
      16 ∣ (dec_ode ok nvp pic).2.1.d.wsrc ∧
      16 ∣ (dec_ode ok nvp pic).2.1.d.hsrc) ∧
    (ok = false →
      dec_ode ok nvp pic = (0, nvp, [Event.decodePicture, Event.warnDecodeFail])) := by
  refine ⟨fun hok => ?_, fun hok => ?_⟩
  · subst hok
    exact ⟨rfl, ⟨pic.PicWidthInMbs, Nat.mul_comm _ _⟩,
      ⟨pic.FrameHeightInMbs, Nat.mul_comm _ _⟩⟩
  · subst hok
    rfl

/-- Witness for C8: a 40x30-macroblock picture is recorded as 640x480. -/
theorem c8_dec_ode_witness :
    dec_ode true nvpMeta ⟨40, 30⟩ =
      (1, { nvpMeta with d := { nvpMeta.d with wsrc := 640, hsrc := 480 } },
        [Event.decodePicture]) ∧ (16 ∣ (640 : Nat)) ∧ (16 ∣ (480 : Nat)) := by
  have hc := (c8_dec_ode true nvpMeta ⟨40, 30⟩).1 rfl
  exact ⟨hc.1.trans (by decide), by decide, by decide⟩

/-- C9: the encode and bitrate entry points on a decoder instance fail with
invalid-argument for every argument combination, leave the instance state
untouched, and emit no hardware operation (their traces are pure
diagnostics). -/
theorem c9_encode_bitrate_einval (nvp : nvp_decoder) (ibuf : Ptr) (ibuf_sz : Nat)
    (obuf : Ptr) (obuf_sz : Nat) (width height : Nat) (format : Nat) (br : Nat) :
    nvp_cuvid_encode nvp ibuf ibuf_sz obuf obuf_sz width height format =
      (nvp_err.einval, nvp, [Event.errEncodeOnDecoder]) ∧
    nvp_cuvid_bitrate nvp br = (nvp_err.einval, nvp, [Event.errBitrateOnDecoder]) ∧
    List.filter Event.isHW [Event.errEncodeOnDecoder] = [] ∧
    List.filter Event.isHW [Event.errBitrateOnDecoder] = [] :=
  ⟨rfl, rfl, rfl, rfl⟩
